import Mathlib

/-!
Verification of pkg/gui/types/common.go from lazygit's concurrency-and-state
core: the enums, the two menu-widget constructors, the per-item operation
registry, the modal interaction (popup) system and the reflog refresh
behaviour described by the specification.

Types and pure functions declared in pkg/gui/types/common.go are embedded
directly. Behaviour that the interface declarations in that file only name
(the implementations of WithInlineStatus, ConfirmIf, SetItemOperation and
friends live elsewhere in the repository) is modelled from the specification
and from the doc comments that accompany the declarations; each such
definition says so in its doc comment.
-/

namespace Lazygit

/-- the MenuWidget enum from common.go: widgets shown in front of a menu
item (none, selected/unselected radio button, selected/unselected checkbox). -/
inductive MenuWidget where
  | MenuWidgetNone
  | MenuWidgetRadioButtonSelected
  | MenuWidgetRadioButtonUnselected
  | MenuWidgetCheckboxSelected
  | MenuWidgetCheckboxUnselected
deriving DecidableEq, Repr, Fintype

/-- MakeMenuRadioButton from common.go. -/
def MakeMenuRadioButton (value : Bool) : MenuWidget :=
  if value then MenuWidget.MenuWidgetRadioButtonSelected
  else MenuWidget.MenuWidgetRadioButtonUnselected

/-- MakeMenuCheckBox from common.go. -/
def MakeMenuCheckBox (value : Bool) : MenuWidget :=
  if value then MenuWidget.MenuWidgetCheckboxSelected
  else MenuWidget.MenuWidgetCheckboxUnselected

/-- the ItemOperation enum from common.go: a long-running operation
associated with an item (branch being pushed, pulled, ...). -/
inductive ItemOperation where
  | ItemOperationNone
  | ItemOperationPushing
  | ItemOperationPulling
  | ItemOperationFastForwarding
  | ItemOperationDeleting
  | ItemOperationFetching
  | ItemOperationCheckingOut
deriving DecidableEq, Repr, Fintype

/-- the StartupStage enum from common.go: startup stages so we do not need
to load everything at once. -/
inductive StartupStage where
  | INITIAL
  | COMPLETE
deriving DecidableEq, Repr, Fintype

/-- the ScreenMode enum from common.go: how much space the selected window
takes up. -/
inductive ScreenMode where
  | SCREEN_NORMAL
  | SCREEN_HALF
  | SCREEN_FULL
deriving DecidableEq, Repr, Fintype

/-- numeric rank of a startup stage (its iota value in the Go source). -/
def stageRank : StartupStage → Nat
  | StartupStage.INITIAL => 0
  | StartupStage.COMPLETE => 1

/-- Modelled from the spec: the startup stage transition, which only moves
forward (initial to complete); the implementation of the one SetStartupStage
call site is not under src/. -/
def startupAdvance : StartupStage → StartupStage
  | StartupStage.INITIAL => StartupStage.COMPLETE
  | StartupStage.COMPLETE => StartupStage.COMPLETE

/-- the deadlock.Mutex lock type used by the Mutexes struct in common.go
(an instrumented, cycle-detecting mutex from the go-deadlock library),
modelled by its lock state. -/
structure DeadlockMutex where
  locked : Bool
deriving DecidableEq, Repr, Fintype

/-- the Mutexes struct from common.go: one deadlock.Mutex per logical data
domain. -/
structure Mutexes where
  RefreshingFilesMutex : DeadlockMutex
  RefreshingBranchesMutex : DeadlockMutex
  RefreshingStatusMutex : DeadlockMutex
  LocalCommitsMutex : DeadlockMutex
  SubCommitsMutex : DeadlockMutex
  AuthorsMutex : DeadlockMutex
  SubprocessMutex : DeadlockMutex
  PopupMutex : DeadlockMutex
  PtyMutex : DeadlockMutex
deriving DecidableEq, Repr

/-- a 9-tuple of domain locks, one slot per logical data domain (files,
branches, status, local commits, sub-commits, authors, subprocess, popup,
pty). -/
def MutexTuple : Type :=
  DeadlockMutex × DeadlockMutex × DeadlockMutex × DeadlockMutex × DeadlockMutex ×
  DeadlockMutex × DeadlockMutex × DeadlockMutex × DeadlockMutex

/-- the nine mutex fields of the Mutexes struct, as a 9-tuple in declaration
order. -/
def mutexesToTuple (m : Mutexes) : MutexTuple :=
  (m.RefreshingFilesMutex, m.RefreshingBranchesMutex, m.RefreshingStatusMutex,
   m.LocalCommitsMutex, m.SubCommitsMutex, m.AuthorsMutex,
   m.SubprocessMutex, m.PopupMutex, m.PtyMutex)

/-- rebuild the Mutexes struct from a 9-tuple of domain locks. -/
def tupleToMutexes (t : MutexTuple) : Mutexes :=
  { RefreshingFilesMutex := t.1,
    RefreshingBranchesMutex := t.2.1,
    RefreshingStatusMutex := t.2.2.1,
    LocalCommitsMutex := t.2.2.2.1,
    SubCommitsMutex := t.2.2.2.2.1,
    AuthorsMutex := t.2.2.2.2.2.1,
    SubprocessMutex := t.2.2.2.2.2.2.1,
    PopupMutex := t.2.2.2.2.2.2.2.1,
    PtyMutex := t.2.2.2.2.2.2.2.2 }

/-- the Operation Registry: in the gui state the item operations live in a
map keyed by the item's URN (the HasUrn interface in common.go); modelled
as an association list of URN/operation pairs. -/
def OperationRegistry : Type := List (String × ItemOperation)

/-- the empty registry (no in-flight operations). -/
def registryEmpty : OperationRegistry := []

/-- Modelled from the spec: ClearItemOperation (declared on IStateAccessor
in common.go, implemented outside src/) deletes the item's map slot
entirely. -/
def ClearItemOperation (r : OperationRegistry) (urn : String) : OperationRegistry :=
  List.filter (fun e => !(e.1 == urn)) r

/-- Modelled from the spec: SetItemOperation (declared on IStateAccessor in
common.go, implemented outside src/) stores the operation under the item's
URN, overwriting any operation already recorded for that item (Go map
assignment semantics). -/
def SetItemOperation (r : OperationRegistry) (urn : String) (op : ItemOperation) :
    OperationRegistry :=
  (urn, op) :: ClearItemOperation r urn

/-- Modelled from the spec: GetItemOperation (declared on IStateAccessor in
common.go, implemented outside src/) looks up the item's URN, returning
ItemOperationNone (the Go zero value) when no entry exists. -/
def GetItemOperation (r : OperationRegistry) (urn : String) : ItemOperation :=
  match List.find? (fun e => e.1 == urn) r with
  | some e => e.2
  | none => ItemOperation.ItemOperationNone

/-- the registry invariant: at most one entry per URN. -/
def registryWF (r : OperationRegistry) : Prop :=
  ∀ u : String, List.countP (fun e => e.1 == u) r ≤ 1

/-- a single registry call: SetItemOperation or ClearItemOperation. -/
inductive RegistryCall where
  | setOp (urn : String) (op : ItemOperation)
  | clearOp (urn : String)

/-- apply one registry call. -/
def applyRegistryCall (r : OperationRegistry) : RegistryCall → OperationRegistry
  | RegistryCall.setOp urn op => SetItemOperation r urn op
  | RegistryCall.clearOp urn => ClearItemOperation r urn

/-- run a sequence of registry calls from a starting registry. -/
def runRegistryCalls (r : OperationRegistry) (calls : List RegistryCall) :
    OperationRegistry :=
  List.foldl applyRegistryCall r calls

/-- the DisabledReason struct from common.go. -/
structure DisabledReason where
  text : String
  showErrorInPanel : Bool
  allowFurtherDispatching : Bool
deriving DecidableEq, Repr

/-- result of running a Go handler against the application model: the new
model plus the returned error, if any (Go handlers have type func() error
and mutate the model through their closure). -/
def HandlerResult (M : Type) : Type := M × Option String

/-- the ConfirmOpts struct from common.go; its handlers are modelled as
explicit functions on the application model M, and FindSuggestionsFunc
returns plain suggestion strings. -/
structure ConfirmOpts (M : Type) where
  title : String
  prompt : String
  handleConfirm : M → HandlerResult M
  handleClose : M → HandlerResult M
  findSuggestionsFunc : Option (String → List String)
  editable : Bool
  mask : Bool

/-- the PromptOpts struct from common.go; the confirm handler receives the
typed text. -/
structure PromptOpts (M : Type) where
  title : String
  initialContent : String
  findSuggestionsFunc : Option (String → List String)
  handleConfirm : String → M → HandlerResult M
  allowEditSuggestion : Bool
  handleClose : M → HandlerResult M
  handleDeleteSuggestion : Option (Nat → M → HandlerResult M)
  mask : Bool

/-- the MenuItem struct from common.go (the Key and Section fields, which
are foreign types of the rendering layer, are omitted). -/
structure MenuItem (M : Type) where
  label : String
  labelColumns : List String
  onPress : M → HandlerResult M
  opensMenu : Bool
  widget : MenuWidget
  tooltip : String
  disabledReason : Option DisabledReason

/-- the ID method on MenuItem from common.go: conforms to the HasID
interface by returning the label. -/
def MenuItem.ID (self : MenuItem M) : String := self.label

/-- the CreateMenuOptions struct from common.go (ColumnAlignment, a
rendering concern, is omitted). -/
structure CreateMenuOptions (M : Type) where
  title : String
  prompt : String
  items : List (MenuItem M)
  hideCancel : Bool

/-- a modal request: the current popup slot holds a confirmation, prompt or
menu request (in the Go code a *CreatePopupPanelOpts, whose optional fields
encode which kind it is). -/
inductive ModalRequest (M : Type) where
  | confirmRequest (opts : ConfirmOpts M)
  | promptRequest (opts : PromptOpts M)
  | menuRequest (opts : CreateMenuOptions M)

/-- the modal interaction state: the application model plus the single
current-popup slot exposed by IRepoStateAccessor.GetCurrentPopupOpts /
SetCurrentPopupOpts in common.go (a single nilable pointer). -/
structure PopupSystem (M : Type) where
  model : M
  currentPopupOpts : Option (ModalRequest M)

/-- how many modal requests are currently showing. -/
def showingCount (st : PopupSystem M) : Nat :=
  match st.currentPopupOpts with
  | some _ => 1
  | none => 0

/-- Modelled from the spec and the doc comment on IPopupHandler.Confirm in
common.go: shows a popup asking the user for confirmation, i.e. fills the
current-popup slot; no handler runs until the user responds. -/
def Confirm (st : PopupSystem M) (opts : ConfirmOpts M) : PopupSystem M :=
  { st with currentPopupOpts := some (ModalRequest.confirmRequest opts) }

/-- Modelled from the spec and the doc comment on IPopupHandler.Prompt in
common.go: shows a popup prompting the user for input. -/
def Prompt (st : PopupSystem M) (opts : PromptOpts M) : PopupSystem M :=
  { st with currentPopupOpts := some (ModalRequest.promptRequest opts) }

/-- Modelled from the spec: IPopupHandler.Menu shows a menu popup. -/
def Menu (st : PopupSystem M) (opts : CreateMenuOptions M) : PopupSystem M :=
  { st with currentPopupOpts := some (ModalRequest.menuRequest opts) }

/-- Modelled from the spec: the user confirming the current confirmation
popup; resolution empties the slot (back to Idle) and runs the confirm
handler against the model. -/
def userConfirm (st : PopupSystem M) : PopupSystem M × Option String :=
  match st.currentPopupOpts with
  | some (ModalRequest.confirmRequest opts) =>
    let r := opts.handleConfirm st.model
    ({ model := r.1, currentPopupOpts := none }, r.2)
  | _ => (st, none)

/-- Modelled from the spec and the doc comment on IPopupHandler.ConfirmIf
in common.go: shows a popup asking the user for confirmation if condition
is true; otherwise, the HandleConfirm function is called directly. -/
def ConfirmIf (condition : Bool) (st : PopupSystem M) (opts : ConfirmOpts M) :
    PopupSystem M × Option String :=
  if condition then (Confirm st opts, none)
  else
    let r := opts.handleConfirm st.model
    ({ st with model := r.1 }, r.2)

/-- one call into the modal interaction manager. -/
inductive ModalCall (M : Type) where
  | callConfirm (opts : ConfirmOpts M)
  | callPrompt (opts : PromptOpts M)
  | callMenu (opts : CreateMenuOptions M)
  | resolveConfirm

/-- apply one modal call to the popup system. -/
def applyModalCall (st : PopupSystem M) : ModalCall M → PopupSystem M
  | ModalCall.callConfirm opts => Confirm st opts
  | ModalCall.callPrompt opts => Prompt st opts
  | ModalCall.callMenu opts => Menu st opts
  | ModalCall.resolveConfirm => (userConfirm st).1

/-- run a sequence of modal calls. -/
def runModalCalls (st : PopupSystem M) (calls : List (ModalCall M)) : PopupSystem M :=
  List.foldl applyModalCall st calls

/-- outcome of a worker function passed to WithInlineStatus: Go worker
functions can return nil, return an error, panic, or observe cancellation
through their gocui.Task handle. -/
inductive WorkerOutcome where
  | success
  | failed (msg : String)
  | panicked (msg : String)
  | cancelled
deriving DecidableEq, Repr

/-- the gui state WithInlineStatus touches: the operation registry plus the
set of context keys being periodically re-rendered for a spinner. -/
structure GuiState where
  registry : OperationRegistry
  periodicRenderContexts : List String

/-- Modelled from the spec and the doc comment on IGuiCommon.WithInlineStatus
in common.go: wraps a worker function, attaching the given operation to the
given item and starting a periodic re-render of the given context while the
function executes; when the function completes — whatever its outcome,
including a panic (the Go code clears in a deferred call) — the item's
operation entry is cleared and the periodic re-render stops. -/
def WithInlineStatus (st : GuiState) (urn : String) (operation : ItemOperation)
    (contextKey : String) (f : GuiState → GuiState × WorkerOutcome) :
    GuiState × WorkerOutcome :=
  let started : GuiState :=
    { registry := SetItemOperation st.registry urn operation,
      periodicRenderContexts := contextKey :: st.periodicRenderContexts }
  let r := f started
  ({ registry := ClearItemOperation r.1.registry urn,
     periodicRenderContexts :=
       List.filter (fun k => !(k == contextKey)) r.1.periodicRenderContexts },
   r.2)

/-- a commit as the reflog sequences see it (identified by its hash; the
remaining fields of models.Commit live outside this core). -/
structure Commit where
  hash : String
deriving DecidableEq, Repr

/-- the reflog-related fields of the Model struct from common.go:
FilteredReflogCommits are the ones that appear in the reflog panel (when in
filtering mode only the ones matching the given path); ReflogCommits are
the full sequence used by the branches panel and for undo. The Model
struct's other domain sequences are not needed by the verified claims. -/
structure Model where
  filteredReflogCommits : List Commit
  reflogCommits : List Commit
  checkedOutBranch : String
deriving DecidableEq, Repr

/-- Modelled from the spec: the reflog part of a full refresh (implemented
outside src/). The freshly derived reflog sequence replaces ReflogCommits;
FilteredReflogCommits is the path-filtered subset when a path filter is
active and the same sequence when not. -/
def refreshReflogCommits (m : Model) (filterPath : Option String)
    (matchesPath : Commit → String → Bool) (newReflog : List Commit) : Model :=
  { m with
    reflogCommits := newReflog,
    filteredReflogCommits :=
      match filterPath with
      | some path => List.filter (fun c => matchesPath c path) newReflog
      | none => newReflog }

/-- clearing a URN leaves no entry counted for it. -/
theorem countP_clearItemOperation (r : OperationRegistry) (urn : String) :
    List.countP (fun e => e.1 == urn) (ClearItemOperation r urn) = 0 := by
  simp [ClearItemOperation, List.countP_filter]

/-- clearing a URN makes lookup return the Go zero value. -/
theorem getItemOperation_clearItemOperation (r : OperationRegistry) (urn : String) :
    GetItemOperation (ClearItemOperation r urn) urn = ItemOperation.ItemOperationNone := by
  have h : List.find? (fun e => e.1 == urn) (List.filter (fun e => !(e.1 == urn)) r) = none := by
    refine List.find?_eq_none.2 ?_
    intro x hx
    have hx2 := (List.mem_filter.1 hx).2
    simpa using hx2
  simp [GetItemOperation, ClearItemOperation, h]

/-- setting an operation makes lookup return it (last-writer-wins). -/
theorem getItemOperation_setItemOperation (r : OperationRegistry) (urn : String)
    (op : ItemOperation) :
    GetItemOperation (SetItemOperation r urn op) urn = op := by
  simp [GetItemOperation, SetItemOperation, List.find?]

/-- the registry invariant survives one SetItemOperation or
ClearItemOperation call. -/
theorem registryWF_applyRegistryCall (r : OperationRegistry) (c : RegistryCall)
    (h : registryWF r) : registryWF (applyRegistryCall r c) := by
  cases c with
  | setOp urn op =>
    intro u
    simp only [applyRegistryCall, SetItemOperation, List.countP_cons]
    by_cases hu : urn = u
    · subst hu
      simp [countP_clearItemOperation r urn]
    · have hne : ((urn, op).1 == u) = false := by simp [hu]
      have hle : List.countP (fun e => e.1 == u) (ClearItemOperation r urn) ≤
          List.countP (fun e => e.1 == u) r := by
        simp only [ClearItemOperation]
        exact List.Sublist.countP_le _ (List.filter_sublist r)
      simp [hne]
      exact le_trans hle (h u)
  | clearOp urn =>
    intro u
    simp only [applyRegistryCall, ClearItemOperation]
    exact le_trans (List.Sublist.countP_le _ (List.filter_sublist r)) (h u)

/-- the registry invariant survives any call sequence. -/
theorem registryWF_runRegistryCalls (calls : List RegistryCall) :
    ∀ r : OperationRegistry, registryWF r → registryWF (runRegistryCalls r calls) := by
  induction calls with
  | nil => intro r h; exact h
  | cons c cs ih => intro r h; exact ih _ (registryWF_applyRegistryCall r c h)

/-- the empty registry satisfies the invariant. -/
theorem registryWF_registryEmpty : registryWF registryEmpty := by
  intro u
  simp [registryEmpty]

/-- C4: at every point in any sequence of SetItemOperation and
ClearItemOperation calls the registry holds at most one operation entry per
item; SetItemOperation overwrites any active operation for the same item
(last-writer-wins), and ClearItemOperation removes the item's map slot
entirely rather than leaving a tombstone. -/
theorem registry_at_most_one_entry :
    (∀ calls : List RegistryCall, registryWF (runRegistryCalls registryEmpty calls)) ∧
    (∀ (r : OperationRegistry) (urn : String) (op : ItemOperation),
      GetItemOperation (SetItemOperation r urn op) urn = op) ∧
    (∀ (r : OperationRegistry) (urn : String),
      List.countP (fun e => e.1 == urn) (ClearItemOperation r urn) = 0) :=
  ⟨fun calls => registryWF_runRegistryCalls calls registryEmpty registryWF_registryEmpty,
   getItemOperation_setItemOperation,
   countP_clearItemOperation⟩

/-- C2: after a WithInlineStatus-wrapped call completes — whatever the
worker outcome (success, error return, panic or cancellation) — the
registry holds no operation entry for the item: lookup returns the zero
value and the item's map slot is gone. -/
theorem withInlineStatus_clears_operation (st : GuiState) (urn : String)
    (operation : ItemOperation) (contextKey : String)
    (f : GuiState → GuiState × WorkerOutcome) :
    GetItemOperation (WithInlineStatus st urn operation contextKey f).1.registry urn =
      ItemOperation.ItemOperationNone ∧
    List.countP (fun e => e.1 == urn)
      (WithInlineStatus st urn operation contextKey f).1.registry = 0 := by
  constructor
  · exact getItemOperation_clearItemOperation _ urn
  · exact countP_clearItemOperation _ urn

/-- C5: across any sequence of Confirm, Prompt and Menu calls (and popup
resolutions) at most one modal request is current at any time: the
current-popup state is a single slot. -/
theorem modal_at_most_one_showing (M : Type) (st : PopupSystem M)
    (calls : List (ModalCall M)) :
    showingCount (runModalCalls st calls) ≤ 1 := by
  cases h : (runModalCalls st calls).currentPopupOpts <;> simp [showingCount, h]

/-- C6: when no path filter is active, after a full refresh the model's
FilteredReflogCommits sequence is element-for-element equal to its
ReflogCommits sequence. -/
theorem reflog_filtered_eq_full_no_filter (m : Model)
    (matchesPath : Commit → String → Bool) (newReflog : List Commit) :
    (refreshReflogCommits m none matchesPath newReflog).filteredReflogCommits =
    (refreshReflogCommits m none matchesPath newReflog).reflogCommits := rfl

/-- C3: ConfirmIf with a false condition invokes the confirm handler
immediately and synchronously without showing a popup, and both the
resulting model and the returned error are identical to those produced when
a user confirms the popup shown by Confirm. -/
theorem confirmIf_false_runs_handler (M : Type) (st : PopupSystem M)
    (opts : ConfirmOpts M) :
    (ConfirmIf false st opts).1.currentPopupOpts = st.currentPopupOpts ∧
    (ConfirmIf false st opts).1.model = (userConfirm (Confirm st opts)).1.model ∧
    (ConfirmIf false st opts).2 = (userConfirm (Confirm st opts)).2 :=
  ⟨rfl, rfl, rfl⟩

/-- a concrete confirmation request over a Nat model: confirming increments
the model. -/
def cexConfirmOpts : ConfirmOpts Nat :=
  { title := "confirm",
    prompt := "are you sure?",
    handleConfirm := fun n => (n + 1, none),
    handleClose := fun n => (n, none),
    findSuggestionsFunc := none,
    editable := false,
    mask := false }

/-- a concrete popup system with no popup showing. -/
def cexPopupSystem : PopupSystem Nat :=
  { model := 0, currentPopupOpts := none }

/-- C1 counterexample: ConfirmIf with a true condition does produce a
popup — at this concrete input (empty popup slot, a confirmation request
that increments a Nat model) the current-popup slot changes from empty to
occupied, refuting the claim that the call produces no popup and no
mutation. -/
theorem confirmIf_true_cex :
    ¬ ((ConfirmIf true cexPopupSystem cexConfirmOpts).1.currentPopupOpts =
         cexPopupSystem.currentPopupOpts ∧
       (ConfirmIf true cexPopupSystem cexConfirmOpts).1.model =
         cexPopupSystem.model) := by
  intro h
  exact Option.noConfusion h.1

/-- C1 (amended): ConfirmIf with a true condition shows the confirmation
popup and performs no immediate model mutation: the current-popup slot is
filled with the request, the model is unchanged, and no handler error is
returned (the confirm handler runs only when the user later confirms). -/
theorem confirmIf_true_shows_popup (M : Type) (st : PopupSystem M)
    (opts : ConfirmOpts M) :
    (ConfirmIf true st opts).1.currentPopupOpts =
      some (ModalRequest.confirmRequest opts) ∧
    (ConfirmIf true st opts).1.model = st.model ∧
    (ConfirmIf true st opts).2 = none :=
  ⟨rfl, rfl, rfl⟩

/-- C7: ItemOperation is an enum with exactly the seven values none,
pushing, pulling, fast-forwarding, deleting, fetching and checking-out. -/
theorem itemOperation_exactly_seven :
    Fintype.card ItemOperation = 7 ∧
    (∀ op : ItemOperation,
      op = ItemOperation.ItemOperationNone ∨
      op = ItemOperation.ItemOperationPushing ∨
      op = ItemOperation.ItemOperationPulling ∨
      op = ItemOperation.ItemOperationFastForwarding ∨
      op = ItemOperation.ItemOperationDeleting ∨
      op = ItemOperation.ItemOperationFetching ∨
      op = ItemOperation.ItemOperationCheckingOut) := by
  constructor
  · decide
  · intro op
    cases op <;> simp

/-- C8: the Mutexes struct consists of exactly nine independently settable
cycle-detecting domain locks (files, branches, status, local commits,
sub-commits, authors, subprocess, popup, pty): projecting its fields onto a
9-tuple of DeadlockMutex values is a bijection, and each lock has exactly
the two states of a mutex. -/
theorem mutexes_nine_domain_locks :
    Function.Bijective mutexesToTuple ∧ Fintype.card DeadlockMutex = 2 := by
  constructor
  · constructor
    · intro a b h
      exact congrArg tupleToMutexes h
    · intro t
      exact ⟨tupleToMutexes t, rfl⟩
  · decide

/-- C9: StartupStage has exactly the two values INITIAL and COMPLETE and
its transition only moves forward (INITIAL advances to COMPLETE, COMPLETE
never regresses); ScreenMode has exactly the three values SCREEN_NORMAL,
SCREEN_HALF and SCREEN_FULL. -/
theorem startupStage_screenMode_enums :
    Fintype.card StartupStage = 2 ∧ Fintype.card ScreenMode = 3 ∧
    (∀ s : StartupStage, s = StartupStage.INITIAL ∨ s = StartupStage.COMPLETE) ∧
    (∀ m : ScreenMode, m = ScreenMode.SCREEN_NORMAL ∨ m = ScreenMode.SCREEN_HALF ∨
      m = ScreenMode.SCREEN_FULL) ∧
    (∀ s : StartupStage, stageRank s ≤ stageRank (startupAdvance s)) ∧
    startupAdvance StartupStage.INITIAL = StartupStage.COMPLETE ∧
    startupAdvance StartupStage.COMPLETE = StartupStage.COMPLETE := by
  refine ⟨by decide, by decide, ?_, ?_, ?_, rfl, rfl⟩
  · intro s; cases s <;> simp
  · intro m; cases m <;> simp
  · intro s; cases s <;> simp [startupAdvance, stageRank]

/-- C10: MakeMenuRadioButton returns the selected radio button exactly when
its argument is true and the unselected one otherwise; MakeMenuCheckBox
likewise for checkboxes; neither ever returns MenuWidgetNone. -/
theorem menu_widget_constructors :
    (∀ b : Bool, MakeMenuRadioButton b =
      if b then MenuWidget.MenuWidgetRadioButtonSelected
      else MenuWidget.MenuWidgetRadioButtonUnselected) ∧
    (∀ b : Bool, MakeMenuCheckBox b =
      if b then MenuWidget.MenuWidgetCheckboxSelected
      else MenuWidget.MenuWidgetCheckboxUnselected) ∧
    (∀ b : Bool, MakeMenuRadioButton b ≠ MenuWidget.MenuWidgetNone) ∧
    (∀ b : Bool, MakeMenuCheckBox b ≠ MenuWidget.MenuWidgetNone) := by
  refine ⟨?_, ?_, ?_, ?_⟩ <;> intro b <;> cases b <;> simp [MakeMenuRadioButton, MakeMenuCheckBox]

end Lazygit
